import Mathlib

/-!
Shallow embedding of `src/src/git_repository_manager.py` from the
auto-commit-scheduler repository.

The module under verification is `GitRepositoryManager`, a thin orchestration
layer over an external `git` executable and a JSON configuration file.  All
external effects (filesystem checks, subprocess runs, file reads/writes) are
modelled as oracle values supplied through environment structures; the Lean
functions below mirror the Python control flow over those oracles, including
Python truthiness of `bool | None` values and the placement of `try/except`
blocks.  Each function keeps the name of the Python function it embeds.
-/

deriving instance DecidableEq for Except

namespace GitRepoMgr

/-- A Python exception value.  We only need to distinguish exception identity,
so the payload is a constructor tag plus a message. -/
inductive Exc
  | osError (msg : String)
  | attributeError (msg : String)
  | valueError (msg : String)
  | other (msg : String)
deriving DecidableEq

/-- Outcome of one `subprocess.run(..., check=True)` call: the process exits 0
with some stdout, exits non-zero (raising `CalledProcessError` with captured
streams), or `subprocess.run` itself raises some other exception (for example
`FileNotFoundError` when the executable is missing). -/
inductive CmdOutcome
  | success (stdout : String)
  | calledProcessError (stdout stderr : String)
  | raised (e : Exc)
deriving DecidableEq

/-- The git subcommands this manager ever invokes. -/
inductive GitCmd
  | status
  | add
  | commit
  | push
deriving DecidableEq

/-- Log records emitted by the manager, one constructor per distinct message
shape in the source. -/
inductive LogEvent
  | errPathNotExist (name path : String)
  | warnNotGitRepo (name path : String)
  | infoNoChanges (name path : String)
  | errStatusCheckFailed (path : String)
  | errCommandFailed (cmd : GitCmd) (path : String)
  | infoSuccess (name path : String)
  | errUnexpected (name path : String)
  | warnNoPaths
  | infoSummary (succ total : Nat)
  | warnPathsFileMissing
  | errReadingPathsFile
  | errWritingPathsFile
deriving DecidableEq

/-- Oracle for everything the outside world does while one repository is
processed: the two `Path.exists()` checks (which in Python can themselves
raise, e.g. `PermissionError` from `stat` on an unreadable parent) and the
four possible subprocess invocations. -/
structure RepoEnv where
  pathExists : Except Exc Bool
  gitDirExists : Except Exc Bool
  statusRun : CmdOutcome
  addRun : CmdOutcome
  commitRun : CmdOutcome
  pushRun : CmdOutcome
deriving DecidableEq

/-- Result of `update_repository`: the returned value (or the exception that
propagates out of it), the subprocess invocations in order, and the log. -/
structure RepoResult where
  result : Except Exc Bool
  cmds : List GitCmd
  logs : List LogEvent
deriving DecidableEq

/-- Python truthiness of a `bool | None` value: `None` and `False` are falsy,
`True` is truthy.  This is what `if not self._has_changes(...)` applies. -/
def pyTruthyOpt : Option Bool → Bool
  | none => false
  | some b => b

/-- Python `str.strip()` with no argument: removes leading and trailing
whitespace characters. -/
def pyStrip (s : String) : String :=
  String.mk
    (((s.toList.dropWhile Char.isWhitespace).reverse.dropWhile
      Char.isWhitespace).reverse)

/-- Embedding of `_has_changes` (lines 106-115): runs
`git status --porcelain` with `check=True`; on exit 0 returns
`bool(result.stdout.strip())`; on `CalledProcessError` logs an error and
falls off the end, returning Python `None`; any other exception propagates.
First component is the returned value, second the log records. -/
def has_changes (path : String) (run : CmdOutcome) :
    Except Exc (Option Bool) × List LogEvent :=
  match run with
  | .success out => (.ok (some (pyStrip out != "")), [])
  | .calledProcessError _ _ => (.ok none, [.errStatusCheckFailed path])
  | .raised e => (.error e, [])

/-- Embedding of `_execute_git_command` (lines 116-128): returns `True` on
exit 0; on `CalledProcessError` logs the command with its captured streams
and returns `False`; any other exception propagates. -/
def execute_git_command (cmd : GitCmd) (path : String) (run : CmdOutcome) :
    Except Exc Bool × List LogEvent :=
  match run with
  | .success _ => (.ok true, [])
  | .calledProcessError _ _ => (.ok false, [.errCommandFailed cmd path])
  | .raised e => (.error e, [])

/-- The body of the `try` block of `update_repository` (lines 63-78):
change detection, then stage / commit / push, each short-circuiting on a
`False` result; an exception anywhere aborts the rest of the body. -/
def update_repository_try (name path : String) (env : RepoEnv) : RepoResult :=
  let hc := has_changes path env.statusRun
  match hc.1 with
  | .error e => { result := .error e, cmds := [.status], logs := hc.2 }
  | .ok hcv =>
    if !(pyTruthyOpt hcv) then
      { result := .ok true, cmds := [.status],
        logs := hc.2 ++ [.infoNoChanges name path] }
    else
      let ar := execute_git_command .add path env.addRun
      match ar.1 with
      | .error e =>
        { result := .error e, cmds := [.status, .add], logs := hc.2 ++ ar.2 }
      | .ok false =>
        { result := .ok false, cmds := [.status, .add], logs := hc.2 ++ ar.2 }
      | .ok true =>
        let cr := execute_git_command .commit path env.commitRun
        match cr.1 with
        | .error e =>
          { result := .error e, cmds := [.status, .add, .commit],
            logs := hc.2 ++ ar.2 ++ cr.2 }
        | .ok false =>
          { result := .ok false, cmds := [.status, .add, .commit],
            logs := hc.2 ++ ar.2 ++ cr.2 }
        | .ok true =>
          let pr := execute_git_command .push path env.pushRun
          match pr.1 with
          | .error e =>
            { result := .error e, cmds := [.status, .add, .commit, .push],
              logs := hc.2 ++ ar.2 ++ cr.2 ++ pr.2 }
          | .ok false =>
            { result := .ok false, cmds := [.status, .add, .commit, .push],
              logs := hc.2 ++ ar.2 ++ cr.2 ++ pr.2 }
          | .ok true =>
            { result := .ok true, cmds := [.status, .add, .commit, .push],
              logs := hc.2 ++ ar.2 ++ cr.2 ++ pr.2 ++ [.infoSuccess name path] }

/-- Embedding of `update_repository` (lines 51-82).  The two existence checks
precede the `try` block, so an exception they raise propagates; the
`except Exception` handler converts any exception raised inside the `try`
body into a logged `False`. -/
def update_repository (name path : String) (env : RepoEnv) : RepoResult :=
  match env.pathExists with
  | .error e => { result := .error e, cmds := [], logs := [] }
  | .ok false =>
    { result := .ok false, cmds := [], logs := [.errPathNotExist name path] }
  | .ok true =>
    match env.gitDirExists with
    | .error e => { result := .error e, cmds := [], logs := [] }
    | .ok false =>
      { result := .ok false, cmds := [], logs := [.warnNotGitRepo name path] }
    | .ok true =>
      let body := update_repository_try name path env
      match body.result with
      | .ok b => { result := .ok b, cmds := body.cmds, logs := body.logs }
      | .error _ =>
        { result := .ok false, cmds := body.cmds,
          logs := body.logs ++ [.errUnexpected name path] }

example :
    (update_repository "r" "/p"
      { pathExists := .ok true, gitDirExists := .ok true,
        statusRun := .calledProcessError "" "fatal",
        addRun := .success "", commitRun := .success "",
        pushRun := .success "" }).result = .ok true := by decide

/-- A Python value that `json.load` can produce from the configuration file.
The manager expects a JSON object mapping names to path strings; `json.load`
will happily return any other JSON value.  Entries keep file order (CPython
`json.load` and `dict` both preserve insertion order). -/
inductive PyJson
  | dict (entries : List (String × String))
  | list (len : Nat)
  | str (s : String)
  | num (n : Int)
  | boolean (b : Bool)
  | null
deriving DecidableEq

/-- Python truthiness of a `json.load` result: empty collections, the empty
string, zero, `False` and `None` are falsy. -/
def PyJson.truthy : PyJson → Bool
  | .dict entries => !entries.isEmpty
  | .list len => len != 0
  | .str s => s != ""
  | .num n => n != 0
  | .boolean b => b
  | .null => false

/-- Truthiness of the `dict[str, str] | None` value returned by `load_paths`,
as tested by `if not paths:` in `update_all_repositories`. -/
def pyTruthyJson : Option PyJson → Bool
  | none => false
  | some v => v.truthy

/-- What happens when the existing configuration file is opened and fed to
`json.load`: `open` itself raises (e.g. `PermissionError`), the contents fail
to parse (`json.JSONDecodeError`), or a JSON value comes back. -/
inductive JsonReadOutcome
  | openRaised (e : Exc)
  | decodeError
  | value (v : PyJson)
deriving DecidableEq

/-- State of the configuration file on disk, as far as this program can
observe it. -/
inductive FsState
  | absent
  | present (read : JsonReadOutcome)
deriving DecidableEq

/-- Result of `load_paths`: the returned value (Python `None` is `Option.none`;
an uncaught exception is `.error`), the file state afterwards, whether a write
to the file was attempted, and the log records. -/
structure LoadResult where
  result : Except Exc (Option PyJson)
  state : FsState
  wrote : Bool
  logs : List LogEvent
deriving DecidableEq

/-- Embedding of `_save_paths` (lines 98-104): writes the mapping as JSON,
catching `OSError` and logging it instead of raising.  `saveOk` is the oracle
for whether the write succeeds. -/
def save_paths (paths : List (String × String)) (saveOk : Bool)
    (s : FsState) : FsState × List LogEvent :=
  if saveOk then (.present (.value (.dict paths)), [])
  else (s, [.errWritingPathsFile])

/-- Embedding of `load_paths` (lines 84-97): if the file is absent, logs a
warning, creates it with an empty mapping via `_save_paths` and returns `{}`;
otherwise opens and parses it, catching only `json.JSONDecodeError` (which is
logged and makes the function fall off the end, returning `None`).  An
exception from `open` propagates. -/
def load_paths (s : FsState) (saveOk : Bool) : LoadResult :=
  match s with
  | .absent =>
    let sv := save_paths [] saveOk s
    { result := .ok (some (.dict [])), state := sv.1, wrote := true,
      logs := [.warnPathsFileMissing] ++ sv.2 }
  | .present read =>
    match read with
    | .openRaised e =>
      { result := .error e, state := s, wrote := false, logs := [] }
    | .decodeError =>
      { result := .ok none, state := s, wrote := false,
        logs := [.errReadingPathsFile] }
    | .value v =>
      { result := .ok (some v), state := s, wrote := false, logs := [] }

/-- The `for name, path in paths.items()` loop of `update_all_repositories`
(lines 44-46): runs `update_repository` on each entry in order, counting
truthy results; an exception escaping `update_repository` aborts the loop and
propagates.  Returns the success count (or the escaped exception), the
argument pairs `update_repository` was invoked with, in order, and the logs. -/
def run_updates (renv : String → String → RepoEnv) :
    List (String × String) → Except Exc Nat × List (String × String) × List LogEvent
  | [] => (.ok 0, [], [])
  | (name, path) :: rest =>
    let r := update_repository name path (renv name path)
    match r.result with
    | .error e => (.error e, [(name, path)], r.logs)
    | .ok b =>
      let tail := run_updates renv rest
      match tail.1 with
      | .error e => (.error e, (name, path) :: tail.2.1, r.logs ++ tail.2.2)
      | .ok c =>
        (.ok ((if b then 1 else 0) + c), (name, path) :: tail.2.1,
          r.logs ++ tail.2.2)

/-- Result of `update_all_repositories`: normal return or escaped exception,
the `update_repository` invocations in order, whether the configuration file
was written, the file state afterwards, and the logs. -/
structure RunResult where
  outcome : Except Exc Unit
  calls : List (String × String)
  wrote : Bool
  finalState : FsState
  logs : List LogEvent
deriving DecidableEq

/-- Embedding of `update_all_repositories` (lines 35-49): loads the mapping
(an exception from `load_paths` propagates), returns with a warning when the
result is falsy (`None`, `{}`, or any falsy JSON value), iterates
`paths.items()` otherwise — which raises `AttributeError` when the value is
not a dict — and logs the `success_count/len(paths)` summary. -/
def update_all_repositories (s : FsState) (saveOk : Bool)
    (renv : String → String → RepoEnv) : RunResult :=
  let lr := load_paths s saveOk
  match lr.result with
  | .error e =>
    { outcome := .error e, calls := [], wrote := lr.wrote,
      finalState := lr.state, logs := lr.logs }
  | .ok paths =>
    if !(pyTruthyJson paths) then
      { outcome := .ok (), calls := [], wrote := lr.wrote,
        finalState := lr.state, logs := lr.logs ++ [.warnNoPaths] }
    else
      match paths with
      | some (.dict entries) =>
        let loop := run_updates renv entries
        match loop.1 with
        | .error e =>
          { outcome := .error e, calls := loop.2.1, wrote := lr.wrote,
            finalState := lr.state, logs := lr.logs ++ loop.2.2 }
        | .ok c =>
          { outcome := .ok (), calls := loop.2.1, wrote := lr.wrote,
            finalState := lr.state,
            logs := lr.logs ++ loop.2.2 ++ [.infoSummary c entries.length] }
      | _ =>
        { outcome := .error (.attributeError "items"), calls := [],
          wrote := lr.wrote, finalState := lr.state, logs := lr.logs }

example :
    (update_repository "r" "/p"
      { pathExists := .ok false, gitDirExists := .ok true,
        statusRun := .success "", addRun := .success "",
        commitRun := .success "", pushRun := .success "" }).cmds = [] := by
  decide

/-- A repository whose path and `.git` directory exist but whose
`git status --porcelain` exits non-zero; the later commands would succeed
if they were run. -/
def envStatusFails : RepoEnv :=
  { pathExists := .ok true, gitDirExists := .ok true,
    statusRun := .calledProcessError "" "fatal: bad status",
    addRun := .success "", commitRun := .success "",
    pushRun := .success "" }

/-- A repository whose `Path.exists()` check itself raises (for Python 3.10/3.11
`pathlib`, a `PermissionError` from `stat` on an unreadable parent directory
propagates out of `exists()`). -/
def envExistsRaises : RepoEnv :=
  { pathExists := .error (.osError "permission denied"),
    gitDirExists := .ok true, statusRun := .success "",
    addRun := .success "", commitRun := .success "",
    pushRun := .success "" }

/-- A repository where everything succeeds and the status query reports a
modified file. -/
def envAllOk : RepoEnv :=
  { pathExists := .ok true, gitDirExists := .ok true,
    statusRun := .success " M file.txt", addRun := .success "",
    commitRun := .success "", pushRun := .success "" }

/-- Claim C1: for a repository that passes the path and metadata checks, if
the status query exits non-zero then `update_repository` should return
`false`, count the repository as a failure, and not log "No changes to
commit".  The code does the opposite: `_has_changes` returns `None` on a
`CalledProcessError`, and `if not self._has_changes(...)` conflates `None`
with `False`, so `update_repository` logs "No changes to commit" and returns
`True`.  This theorem evaluates the embedding at the failing input. -/
theorem C1_status_failure_treated_as_success :
    (update_repository "repo" "/repo" envStatusFails).result = .ok true ∧
    LogEvent.infoNoChanges "repo" "/repo" ∈
      (update_repository "repo" "/repo" envStatusFails).logs ∧
    (update_repository "repo" "/repo" envStatusFails).cmds = [.status] := by
  decide

/-- Claim C2, counterexample: the path-existence checks of
`update_repository` (lines 55-61) sit before the `try` block (line 63), so an
exception raised while checking that the path exists is not caught: it
propagates out of `update_repository` instead of yielding `false`. -/
theorem C2_counterexample :
    (update_repository "repo" "/blocked/repo" envExistsRaises).result =
      .error (.osError "permission denied") ∧
    (update_repository "repo" "/blocked/repo" envExistsRaises).result ≠
      .ok false := by decide

/-- Holds when one of the four `try`-body operations of `update_repository`
raises exception `e` at a point the control flow actually reaches: the status
query itself raises, or the status query reports changes and the add command
raises, or add also succeeds and the commit command raises, or commit also
succeeds and the push command raises. -/
def tryBodyRaises (env : RepoEnv) (e : Exc) : Prop :=
  env.statusRun = .raised e ∨
  ∃ out, env.statusRun = .success out ∧ pyStrip out ≠ "" ∧
    (env.addRun = .raised e ∨
     ∃ s1, env.addRun = .success s1 ∧
       (env.commitRun = .raised e ∨
        ∃ s2, env.commitRun = .success s2 ∧ env.pushRun = .raised e))

/-- Claim C2, amended: when the two existence checks return normally, no
exception escapes `update_repository`, and any exception raised inside the
`try` body — by the change detection, stage, commit or push operation, at a
point the control flow reaches — is caught, logged as an unexpected error,
and yields `false`.  Exceptions raised by the existence checks themselves
precede the `try` block and propagate. -/
theorem C2_amended_try_body_exceptions_caught (name path : String)
    (env : RepoEnv) (b1 b2 : Bool)
    (h1 : env.pathExists = .ok b1) (h2 : env.gitDirExists = .ok b2) :
    (∃ b, (update_repository name path env).result = .ok b) ∧
    (b1 = true → b2 = true → ∀ e, tryBodyRaises env e →
      (update_repository name path env).result = .ok false ∧
      LogEvent.errUnexpected name path ∈
        (update_repository name path env).logs) := by
  constructor
  · cases b1 with
    | false => exact ⟨false, by simp [update_repository, h1]⟩
    | true =>
      cases b2 with
      | false => exact ⟨false, by simp [update_repository, h1, h2]⟩
      | true =>
        cases hb : (update_repository_try name path env).result with
        | ok b => exact ⟨b, by simp [update_repository, h1, h2, hb]⟩
        | error e => exact ⟨false, by simp [update_repository, h1, h2, hb]⟩
  · intro hb1 hb2 e hr
    subst hb1
    subst hb2
    rcases hr with hs | ⟨out, hs, hne, hrest⟩
    · simp [update_repository, update_repository_try, has_changes, h1, h2,
        hs]
    · have hne' : (pyStrip out != "") = true := bne_iff_ne.mpr hne
      rcases hrest with ha | ⟨s1, ha, hrest⟩
      · simp [update_repository, update_repository_try, has_changes,
          execute_git_command, pyTruthyOpt, h1, h2, hs, hne', ha]
      · rcases hrest with hc | ⟨s2, hc, hp⟩
        · simp [update_repository, update_repository_try, has_changes,
            execute_git_command, pyTruthyOpt, h1, h2, hs, hne', ha, hc]
        · simp [update_repository, update_repository_try, has_changes,
            execute_git_command, pyTruthyOpt, h1, h2, hs, hne', ha, hc, hp]

/-- A repository with changes whose stage command (`git add .`) raises an
exception other than `CalledProcessError`. -/
def envAddRaises : RepoEnv :=
  { pathExists := .ok true, gitDirExists := .ok true,
    statusRun := .success " M file.txt",
    addRun := .raised (.osError "boom"),
    commitRun := .success "", pushRun := .success "" }

/-- Witness for C2's amended theorem at a concrete environment whose stage
command raises: the exception is caught, the unexpected-error record is
logged, and the update reports `false`. -/
theorem C2_amended_witness :
    (∃ b, (update_repository "r" "/p" envAddRaises).result = .ok b) ∧
    (update_repository "r" "/p" envAddRaises).result = .ok false ∧
    LogEvent.errUnexpected "r" "/p" ∈
      (update_repository "r" "/p" envAddRaises).logs :=
  ⟨(C2_amended_try_body_exceptions_caught "r" "/p" envAddRaises true true
      rfl rfl).1,
   (C2_amended_try_body_exceptions_caught "r" "/p" envAddRaises true true
      rfl rfl).2 rfl rfl (.osError "boom")
     (Or.inr ⟨" M file.txt", rfl, by decide, Or.inl rfl⟩)⟩

/-- A per-repository oracle used in closed statements where the repository
loop is never reached or its outcome is irrelevant. -/
def trivialRenv : String → String → RepoEnv := fun _ _ => envAllOk

/-- Claim C3, counterexample: a configuration file containing `[1]` — valid
JSON but not an object — is not treated as "no mapping available":
`load_paths` returns the list unchanged, and `update_all_repositories` then
raises `AttributeError` at `paths.items()` instead of logging a warning and
returning. -/
theorem C3_counterexample :
    (load_paths (.present (.value (.list 1))) true).result =
      .ok (some (.list 1)) ∧
    (update_all_repositories (.present (.value (.list 1))) true
        trivialRenv).outcome = .error (.attributeError "items") := by
  decide

/-- Claim C3, amended: for an existing configuration file whose contents fail
to parse as JSON at all (`json.JSONDecodeError`), `load_paths` returns `None`
("no mapping available"), and `update_all_repositories` logs a warning and
returns without raising and without invoking any per-repository update.
Contents that are valid JSON but not an object are returned by `load_paths`
unchanged, and `update_all_repositories` raises `AttributeError` when such a
value is truthy. -/
theorem C3_amended_decode_error_warns_and_returns (saveOk : Bool)
    (renv : String → String → RepoEnv) :
    (load_paths (.present .decodeError) saveOk).result = .ok none ∧
    (update_all_repositories (.present .decodeError) saveOk renv).outcome =
      .ok () ∧
    (update_all_repositories (.present .decodeError) saveOk renv).calls =
      [] ∧
    LogEvent.warnNoPaths ∈
      (update_all_repositories (.present .decodeError) saveOk renv).logs := by
  refine ⟨rfl, ?_, ?_, ?_⟩ <;>
    simp [update_all_repositories, load_paths, pyTruthyJson]

/-- When no `update_repository` call raises, the loop of
`update_all_repositories` visits every entry in order and returns the number
of entries whose update reported success. -/
theorem run_updates_no_exception (renv : String → String → RepoEnv) :
    ∀ entries : List (String × String),
    (∀ n p, (n, p) ∈ entries →
      ∃ b, (update_repository n p (renv n p)).result = .ok b) →
    (run_updates renv entries).1 =
      .ok (entries.countP (fun np =>
        decide ((update_repository np.1 np.2 (renv np.1 np.2)).result =
          .ok true))) ∧
    (run_updates renv entries).2.1 = entries
  | [], _ => by simp [run_updates]
  | (n, p) :: rest, h => by
    obtain ⟨b, hb⟩ := h n p (List.mem_cons_self _ _)
    have ih := run_updates_no_exception renv rest
      (fun n' p' hm => h n' p' (List.mem_cons_of_mem _ hm))
    refine ⟨?_, ?_⟩ <;>
      cases b <;>
        simp [run_updates, hb, ih.1, ih.2, List.countP_cons, Nat.add_comm]

/-- Claim C4: for a configuration file holding a non-empty object with `N`
entries, `update_all_repositories` invokes `update_repository` once per entry
in insertion order, regardless of each boolean outcome, and logs a summary
record carrying the success count and `N`.  (The hypothesis `hok` rules out
the separately analysed case of an exception escaping `update_repository`,
which is claim C2's subject.) -/
theorem C4_update_all_visits_every_entry
    (entries : List (String × String)) (saveOk : Bool)
    (renv : String → String → RepoEnv)
    (hne : entries ≠ [])
    (hok : ∀ n p, (n, p) ∈ entries →
      ∃ b, (update_repository n p (renv n p)).result = .ok b) :
    (update_all_repositories (.present (.value (.dict entries))) saveOk
      renv).calls = entries ∧
    LogEvent.infoSummary
      (entries.countP (fun np =>
        decide ((update_repository np.1 np.2 (renv np.1 np.2)).result =
          .ok true)))
      entries.length ∈
      (update_all_repositories (.present (.value (.dict entries))) saveOk
        renv).logs := by
  have hrun := run_updates_no_exception renv entries hok
  have hempty : entries.isEmpty = false := by
    cases entries with
    | nil => exact absurd rfl hne
    | cons a l => rfl
  refine ⟨?_, ?_⟩ <;>
    simp [update_all_repositories, load_paths, pyTruthyJson, PyJson.truthy,
      hempty, hrun.1, hrun.2]

/-- The two-repository scenario of the specification: `a` is a valid
repository with changes and all commands succeed, `b` is missing from the
filesystem. -/
def renvDemo : String → String → RepoEnv := fun name _ =>
  if name = "a" then envAllOk
  else
    { pathExists := .ok false, gitDirExists := .ok false,
      statusRun := .success "", addRun := .success "",
      commitRun := .success "", pushRun := .success "" }

/-- The mapping of the specification's scenario. -/
def demoEntries : List (String × String) :=
  [("a", "/valid/repo-with-changes"), ("b", "/missing/path")]

/-- Witness for C4 at the specification's two-repository scenario: both
entries are visited in order and the summary reports one success out of
two. -/
theorem C4_witness :
    (update_all_repositories (.present (.value (.dict demoEntries))) true
      renvDemo).calls = demoEntries ∧
    LogEvent.infoSummary
      (demoEntries.countP (fun np =>
        decide ((update_repository np.1 np.2 (renvDemo np.1 np.2)).result =
          .ok true)))
      demoEntries.length ∈
      (update_all_repositories (.present (.value (.dict demoEntries))) true
        renvDemo).logs :=
  C4_update_all_visits_every_entry demoEntries true renvDemo (by decide)
    (by
      intro n p hm
      simp [demoEntries] at hm
      rcases hm with ⟨rfl, rfl⟩ | ⟨rfl, rfl⟩
      · exact ⟨true, by decide⟩
      · exact ⟨false, by decide⟩)

/-- Claim C5: for a repository that passes both checks and whose status query
succeeds with non-empty trimmed output, the commands run in the order
status, stage, commit, push; a `CalledProcessError` in any of the three
mutating commands stops the sequence there with result `false`, and when all
three succeed exactly those four invocations happen and the result is
`true`. -/
theorem C5_stage_commit_push_order (name path out : String) (env : RepoEnv)
    (h1 : env.pathExists = .ok true) (h2 : env.gitDirExists = .ok true)
    (h3 : env.statusRun = .success out) (h4 : pyStrip out ≠ "") :
    (∀ s1 s2 s3, env.addRun = .success s1 → env.commitRun = .success s2 →
      env.pushRun = .success s3 →
      (update_repository name path env).cmds =
        [.status, .add, .commit, .push] ∧
      (update_repository name path env).result = .ok true) ∧
    (∀ o1 e1, env.addRun = .calledProcessError o1 e1 →
      (update_repository name path env).cmds = [.status, .add] ∧
      (update_repository name path env).result = .ok false) ∧
    (∀ s1 o1 e1, env.addRun = .success s1 →
      env.commitRun = .calledProcessError o1 e1 →
      (update_repository name path env).cmds = [.status, .add, .commit] ∧
      (update_repository name path env).result = .ok false) ∧
    (∀ s1 s2 o1 e1, env.addRun = .success s1 → env.commitRun = .success s2 →
      env.pushRun = .calledProcessError o1 e1 →
      (update_repository name path env).cmds =
        [.status, .add, .commit, .push] ∧
      (update_repository name path env).result = .ok false) := by
  have h4' : (pyStrip out != "") = true := bne_iff_ne.mpr h4
  refine ⟨?_, ?_, ?_, ?_⟩
  · intro s1 s2 s3 ha hc hp
    simp [update_repository, update_repository_try, has_changes,
      execute_git_command, pyTruthyOpt, h1, h2, h3, h4', ha, hc, hp]
  · intro o1 e1 ha
    simp [update_repository, update_repository_try, has_changes,
      execute_git_command, pyTruthyOpt, h1, h2, h3, h4', ha]
  · intro s1 o1 e1 ha hc
    simp [update_repository, update_repository_try, has_changes,
      execute_git_command, pyTruthyOpt, h1, h2, h3, h4', ha, hc]
  · intro s1 s2 o1 e1 ha hc hp
    simp [update_repository, update_repository_try, has_changes,
      execute_git_command, pyTruthyOpt, h1, h2, h3, h4', ha, hc, hp]

/-- Witness for C5: with every command succeeding, the four invocations
happen in order and the update reports success. -/
theorem C5_witness :
    (update_repository "r" "/p" envAllOk).cmds =
      [.status, .add, .commit, .push] ∧
    (update_repository "r" "/p" envAllOk).result = .ok true :=
  (C5_stage_commit_push_order "r" "/p" " M file.txt" envAllOk rfl rfl rfl
    (by decide)).1 "" "" "" rfl rfl rfl

/-- Claim C6: a repository that passes both checks and whose status query
succeeds with empty trimmed output yields `true`, with the status query as
the only subprocess invocation and a "No changes to commit" log record. -/
theorem C6_no_changes_success_without_commands (name path out : String)
    (env : RepoEnv)
    (h1 : env.pathExists = .ok true) (h2 : env.gitDirExists = .ok true)
    (h3 : env.statusRun = .success out) (h4 : pyStrip out = "") :
    (update_repository name path env).result = .ok true ∧
    (update_repository name path env).cmds = [.status] ∧
    LogEvent.infoNoChanges name path ∈
      (update_repository name path env).logs := by
  have h4' : (pyStrip out != "") = false := by simp [h4]
  refine ⟨?_, ?_, ?_⟩ <;>
    simp [update_repository, update_repository_try, has_changes,
      pyTruthyOpt, h1, h2, h3, h4']

/-- Witness for C6 at a repository whose status output is whitespace only. -/
theorem C6_witness :
    (update_repository "r" "/p"
      { pathExists := .ok true, gitDirExists := .ok true,
        statusRun := .success "", addRun := .success "",
        commitRun := .success "", pushRun := .success "" }).result =
      .ok true ∧
    (update_repository "r" "/p"
      { pathExists := .ok true, gitDirExists := .ok true,
        statusRun := .success "", addRun := .success "",
        commitRun := .success "", pushRun := .success "" }).cmds =
      [.status] ∧
    LogEvent.infoNoChanges "r" "/p" ∈
      (update_repository "r" "/p"
        { pathExists := .ok true, gitDirExists := .ok true,
          statusRun := .success "", addRun := .success "",
          commitRun := .success "", pushRun := .success "" }).logs :=
  C6_no_changes_success_without_commands "r" "/p" ""
    { pathExists := .ok true, gitDirExists := .ok true,
      statusRun := .success "", addRun := .success "",
      commitRun := .success "", pushRun := .success "" } rfl rfl rfl rfl

/-- Claim C7: a repository whose path check returns `False` fails with no
subprocess invocation at all, and one whose path exists but whose `.git`
check returns `False` fails without invoking status, stage, commit or
push. -/
theorem C7_validation_failures_run_no_commands (name path : String)
    (env : RepoEnv) :
    (env.pathExists = .ok false →
      (update_repository name path env).result = .ok false ∧
      (update_repository name path env).cmds = [] ∧
      LogEvent.errPathNotExist name path ∈
        (update_repository name path env).logs) ∧
    (env.pathExists = .ok true → env.gitDirExists = .ok false →
      (update_repository name path env).result = .ok false ∧
      (update_repository name path env).cmds = [] ∧
      LogEvent.warnNotGitRepo name path ∈
        (update_repository name path env).logs) := by
  constructor
  · intro h1
    refine ⟨?_, ?_, ?_⟩ <;> simp [update_repository, h1]
  · intro h1 h2
    refine ⟨?_, ?_, ?_⟩ <;> simp [update_repository, h1, h2]

/-- Witness for C7: one repository with a missing path and one that is not a
git working copy, both failing without any subprocess invocation. -/
theorem C7_witness :
    ((update_repository "b" "/missing/path"
      { pathExists := .ok false, gitDirExists := .ok false,
        statusRun := .success "", addRun := .success "",
        commitRun := .success "", pushRun := .success "" }).result =
        .ok false ∧
     (update_repository "b" "/missing/path"
      { pathExists := .ok false, gitDirExists := .ok false,
        statusRun := .success "", addRun := .success "",
        commitRun := .success "", pushRun := .success "" }).cmds = [] ∧
     LogEvent.errPathNotExist "b" "/missing/path" ∈
       (update_repository "b" "/missing/path"
        { pathExists := .ok false, gitDirExists := .ok false,
          statusRun := .success "", addRun := .success "",
          commitRun := .success "", pushRun := .success "" }).logs) ∧
    ((update_repository "c" "/plain/dir"
      { pathExists := .ok true, gitDirExists := .ok false,
        statusRun := .success "", addRun := .success "",
        commitRun := .success "", pushRun := .success "" }).result =
        .ok false ∧
     (update_repository "c" "/plain/dir"
      { pathExists := .ok true, gitDirExists := .ok false,
        statusRun := .success "", addRun := .success "",
        commitRun := .success "", pushRun := .success "" }).cmds = [] ∧
     LogEvent.warnNotGitRepo "c" "/plain/dir" ∈
       (update_repository "c" "/plain/dir"
        { pathExists := .ok true, gitDirExists := .ok false,
          statusRun := .success "", addRun := .success "",
          commitRun := .success "", pushRun := .success "" }).logs) :=
  ⟨(C7_validation_failures_run_no_commands "b" "/missing/path"
      { pathExists := .ok false, gitDirExists := .ok false,
        statusRun := .success "", addRun := .success "",
        commitRun := .success "", pushRun := .success "" }).1 rfl,
   (C7_validation_failures_run_no_commands "c" "/plain/dir"
      { pathExists := .ok true, gitDirExists := .ok false,
        statusRun := .success "", addRun := .success "",
        commitRun := .success "", pushRun := .success "" }).2 rfl rfl⟩

/-- Claim C8: `_has_changes` returns `True` exactly when the status query
succeeds with non-empty stripped output; a successful query with empty
stripped output yields `False`; a `CalledProcessError` yields Python `None`,
which is a value distinct from `False`; and any other exception from the
query propagates. -/
theorem C8_has_changes_tristate (path out so se : String) (e : Exc) :
    (has_changes path (.success out)).1 = .ok (some (pyStrip out != "")) ∧
    ((has_changes path (.success out)).1 = .ok (some true) ↔
      pyStrip out ≠ "") ∧
    (has_changes path (.calledProcessError so se)).1 = .ok none ∧
    (has_changes path (.calledProcessError so se)).1 ≠ .ok (some false) ∧
    (has_changes path (.raised e)).1 = .error e := by
  refine ⟨rfl, ?_, rfl, by simp [has_changes], rfl⟩
  simp [has_changes]

/-- Every branch of `update_all_repositories` leaves the configuration file
exactly as `load_paths` left it and reports the same write flag: the loop
over repositories never touches the configuration file. -/
theorem update_all_file_effects (s : FsState) (saveOk : Bool)
    (renv : String → String → RepoEnv) :
    (update_all_repositories s saveOk renv).wrote =
      (load_paths s saveOk).wrote ∧
    (update_all_repositories s saveOk renv).finalState =
      (load_paths s saveOk).state := by
  unfold update_all_repositories
  cases h : (load_paths s saveOk).result with
  | error e => simp [h]
  | ok paths =>
    simp only [h]
    by_cases ht : pyTruthyJson paths = true
    · simp only [ht, Bool.not_true]
      cases paths with
      | none => simp [pyTruthyJson] at ht
      | some v =>
        cases v with
        | dict entries =>
          simp only
          cases hr : (run_updates renv entries).1 <;> simp
        | list len => simp
        | str str => simp
        | num n => simp
        | boolean b => simp
        | null => simp
    · simp [Bool.not_eq_true] at ht
      simp [ht]

/-- Claim C9: with the configuration file absent, `load_paths` is idempotent —
the first call creates the file containing an empty mapping and returns the
empty mapping, and a second call returns the same empty mapping without
erroring and without writing again; and whenever the file already exists,
neither `load_paths` nor `update_all_repositories` ever writes to or mutates
it. -/
theorem C9_load_paths_idempotent_and_read_only (read : JsonReadOutcome)
    (saveOk : Bool) (renv : String → String → RepoEnv) :
    ((load_paths .absent true).result = .ok (some (.dict [])) ∧
     (load_paths .absent true).state = .present (.value (.dict [])) ∧
     (load_paths (load_paths .absent true).state true).result =
       .ok (some (.dict [])) ∧
     (load_paths (load_paths .absent true).state true).wrote = false) ∧
    ((load_paths (.present read) saveOk).wrote = false ∧
     (load_paths (.present read) saveOk).state = .present read) ∧
    ((update_all_repositories (.present read) saveOk renv).wrote = false ∧
     (update_all_repositories (.present read) saveOk renv).finalState =
       .present read) := by
  have hfile := update_all_file_effects (.present read) saveOk renv
  have hload : (load_paths (.present read) saveOk).wrote = false ∧
      (load_paths (.present read) saveOk).state = .present read := by
    cases read <;> simp [load_paths]
  exact ⟨by decide, hload,
    ⟨hfile.1.trans hload.1, hfile.2.trans hload.2⟩⟩

/-- Claim C10: an I/O exception raised while opening an existing
configuration file is not caught by `load_paths` — only
`json.JSONDecodeError` is — so it propagates through
`update_all_repositories`, aborting the run before any repository update is
invoked, instead of being treated as "no mapping available". -/
theorem C10_open_error_propagates (e : Exc) (saveOk : Bool)
    (renv : String → String → RepoEnv) :
    (load_paths (.present (.openRaised e)) saveOk).result = .error e ∧
    (update_all_repositories (.present (.openRaised e)) saveOk
      renv).outcome = .error e ∧
    (update_all_repositories (.present (.openRaised e)) saveOk
      renv).calls = [] := by
  refine ⟨rfl, ?_, ?_⟩ <;> simp [update_all_repositories, load_paths]

end GitRepoMgr
